import Mathlib

/-!
Verification of the Map_Province dashboard (src/Map_Province.py).

The program is a single script: a loader (`load_data`) parses an uploaded
table, checks the required columns Province and SubmissionDate, parses the
date column best-effort, and derives one (lat, lon) pair per row from two
candidate coordinate-column pairs (`pick_coordinates`); a filter restricts
rows to a selected province (or the sentinel "All Provinces"); three
presenters render a timeline, a point map, and a missing-coordinates report.

The embedding below is a shallow one: a DataFrame becomes a list of rows
with the columns the script touches as typed optional fields plus an `extra`
association list for the free-form remainder; a null cell is `none`;
pandas `notna` is `Option.isSome`; the parse of `pd.to_datetime` with
coerce-errors is an abstract total function `String → Option DateTime`
passed as a parameter; every Streamlit side effect (st.error, st.stop,
st.info, charts) becomes a value of an output type.
-/

namespace MapProvince

/-- A parsed date-and-time value, as produced by the date parser: `day` is a
calendar-day index (chronological order is the integer order) and `tod` the
time within the day.  The timeline presenter only ever uses `day`. -/
structure DateTime where
  day : Int
  tod : Nat
deriving DecidableEq

/-- A row of the uploaded table before loading.  The fields mirror the
columns the script reads: KEY, Province, SubmissionDate (still a raw string
cell), the primary coordinate pair Geopoint1-Latitude / Geopoint1-Longitude
and the secondary pair geopoint-Latitude / geopoint-Longitude; `extra` holds
all remaining free-form columns as (column name, cell) pairs.  A missing
column or a null cell are both `none`, matching `row.get` returning NA. -/
structure RawRow where
  KEY : Option String
  Province : Option String
  SubmissionDate : Option String
  geopoint1Latitude : Option ℚ
  geopoint1Longitude : Option ℚ
  geopointLatitude : Option ℚ
  geopointLongitude : Option ℚ
  extra : List (String × Option String)
deriving DecidableEq

/-- A row of the loaded table: the original columns, with SubmissionDate
rewritten by date parsing, plus the two derived columns `lat` and `lon`
appended by the loader. -/
structure Row where
  KEY : Option String
  Province : Option String
  SubmissionDate : Option DateTime
  geopoint1Latitude : Option ℚ
  geopoint1Longitude : Option ℚ
  geopointLatitude : Option ℚ
  geopointLongitude : Option ℚ
  extra : List (String × Option String)
  lat : Option ℚ
  lon : Option ℚ
deriving DecidableEq

/-- The uploaded table as parsed by the CSV/Excel reader: the two flags
record whether the required columns Province and SubmissionDate are present
in `df.columns`, `ncols` is the number of columns of the parsed frame (the
header width, which the coordinate-expansion step consults when there are
zero data rows), and `rows` are the data rows. -/
structure RawTable where
  hasProvince : Bool
  hasSubmissionDate : Bool
  ncols : Nat
  rows : List RawRow
deriving DecidableEq

/-- What `load_data` returns when it runs to completion: the messages
passed to `st.error`, and the returned table (`pd.DataFrame()`, the empty
table, on a missing required column). -/
structure LoadOutput where
  errors : List String
  table : List Row
deriving DecidableEq

/-- The outcome of calling `load_data`: either an uncaught exception
propagates out of it (aborting the whole script run), or it returns. -/
inductive LoadResult where
  | raised (msg : String)
  | returned (out : LoadOutput)
deriving DecidableEq

/-- Embeds `pick_coordinates` (src lines 45-51): if both primary fields are
non-null return the primary pair, else if both secondary fields are non-null
return the secondary pair, else (NA, NA). -/
def pick_coordinates (row : RawRow) : Option ℚ × Option ℚ :=
  if row.geopoint1Latitude.isSome && row.geopoint1Longitude.isSome then
    (row.geopoint1Latitude, row.geopoint1Longitude)
  else if row.geopointLatitude.isSome && row.geopointLongitude.isSome then
    (row.geopointLatitude, row.geopointLongitude)
  else
    (none, none)

/-- The per-row work of `load_data` once the required columns are known to be
present: the SubmissionDate cell goes through the best-effort parser (a null
cell stays null, an unparseable cell becomes null), the derived lat and lon
columns are appended from `pick_coordinates`, every other cell is copied
unchanged. -/
def loadRow (parse : String → Option DateTime) (r : RawRow) : Row :=
  { KEY := r.KEY
    Province := r.Province
    SubmissionDate := r.SubmissionDate.bind parse
    geopoint1Latitude := r.geopoint1Latitude
    geopoint1Longitude := r.geopoint1Longitude
    geopointLatitude := r.geopointLatitude
    geopointLongitude := r.geopointLongitude
    extra := r.extra
    lat := (pick_coordinates r).1
    lon := (pick_coordinates r).2 }

/-- Models the pandas semantics of src lines 53-54:
`df.apply(pick_coordinates, axis=1, result_type="expand")` on a frame with
zero rows never calls the function and returns a copy of the frame with its
original `origCols` columns (pandas `apply_empty_result`, since
`result_type` is not in `["reduce", None]`), after which
`coords.columns = ["lat", "lon"]` demands exactly 2 columns and raises a
length-mismatch ValueError otherwise; with at least one row the expansion
yields the 2 columns.  Returns the number of columns of `coords` on
success. -/
def coords_column_assignment (origCols : Nat) (rowCount : Nat) : Except String Nat :=
  if rowCount = 0 then
    if origCols = 2 then Except.ok 2
    else Except.error ("Length mismatch: Expected axis has " ++ toString origCols ++
      " elements, new values have 2 elements")
  else Except.ok 2

/-- Embeds `load_data` (src lines 24-57): reject a table lacking the
Province column, then one lacking the SubmissionDate column, reporting an
error and returning the empty table; otherwise parse dates and run the
coordinate expansion — which, per `coords_column_assignment`, raises an
uncaught ValueError on a zero-row frame whose width is not 2, and
otherwise derives the coordinate columns row by row.  `parse` abstracts
`pd.to_datetime` with errors coerced to null. -/
def load_data (parse : String → Option DateTime) (t : RawTable) : LoadResult :=
  if t.hasProvince = false then
    LoadResult.returned
      { errors := ["The file must contain a 'Province' column."], table := [] }
  else if t.hasSubmissionDate = false then
    LoadResult.returned
      { errors := ["The file must contain a 'SubmissionDate' column."], table := [] }
  else
    match coords_column_assignment t.ncols t.rows.length with
    | Except.error msg => LoadResult.raised msg
    | Except.ok _ =>
      LoadResult.returned { errors := [], table := t.rows.map (loadRow parse) }

/-- Embeds the province filter (src lines 68-70): the full table when the
sentinel "All Provinces" is selected, otherwise the rows whose Province cell
equals the selection (a null Province never equals a string, as in pandas). -/
def filtered (df : List Row) (selected_province : String) : List Row :=
  if selected_province = "All Provinces" then df
  else df.filter (fun r => decide (r.Province = some selected_province))

/-- Embeds `valid_coords` (src line 73): the rows of the filtered table with
both derived coordinates non-null. -/
def valid_coords (f : List Row) : List Row :=
  f.filter (fun r => r.lat.isSome && r.lon.isSome)

/-- Embeds `missing_coords` (src line 74): the rows of the filtered table
with a null derived latitude or a null derived longitude. -/
def missing_coords (f : List Row) : List Row :=
  f.filter (fun r => r.lat.isNone || r.lon.isNone)

/-- The calendar day of a row's parsed timestamp, as in
`times["SubmissionDate"].dt.date` (src line 80); null for a null timestamp. -/
def date_only (r : Row) : Option Int :=
  r.SubmissionDate.map DateTime.day

/-- The multiset of calendar days of the rows with a non-null timestamp: the
`date_only` column of `times = filtered.dropna(subset=["SubmissionDate"])`
(src lines 79-80). -/
def datesOf (f : List Row) : List Int :=
  f.filterMap date_only

/-- Inserts a day into an ascending duplicate-free list of days, keeping it
ascending and duplicate-free.  Building block for the sorted distinct group
keys that `groupby` produces. -/
def insertKey (d : Int) : List Int → List Int
  | [] => [d]
  | x :: xs =>
    if d < x then d :: x :: xs
    else if d = x then x :: xs
    else x :: insertKey d xs

/-- The distinct days occurring in a list, in ascending order: the group
keys of `times.groupby("date_only")`, which pandas sorts ascending. -/
def sortedKeys (l : List Int) : List Int :=
  l.foldr insertKey []

/-- Embeds `times_by_date` (src line 81): one (day, count) point per
distinct day, counts taken over the rows with that day, days ascending. -/
def times_by_date (f : List Row) : List (Int × Nat) :=
  (sortedKeys (datesOf f)).map (fun d => (d, (datesOf f).count d))

/-- What the timeline section renders: a line chart of (day, count) points,
or the informational empty-state message. -/
inductive TimelineOutput where
  | chart (points : List (Int × Nat))
  | info (msg : String)
deriving DecidableEq

/-- Embeds the timeline section (src lines 78-85): a chart of
`times_by_date` when some timestamp is non-null, else `st.info`. -/
def timeline (f : List Row) : TimelineOutput :=
  if f.any (fun r => r.SubmissionDate.isSome) then
    TimelineOutput.chart (times_by_date f)
  else
    TimelineOutput.info ("No valid SubmissionDate values found.")

/-- The arithmetic mean of a pandas numeric series, `Series.mean`. -/
def seriesMean (xs : List ℚ) : ℚ :=
  xs.sum / (xs.length : ℚ)

/-- Embeds `center_lat` (src line 96): the mean of the lat column of
`valid_coords`. -/
def center_lat (v : List Row) : ℚ :=
  seriesMean (v.filterMap Row.lat)

/-- Embeds `center_lon` (src line 97): the mean of the lon column of
`valid_coords`. -/
def center_lon (v : List Row) : ℚ :=
  seriesMean (v.filterMap Row.lon)

/-- Embeds `pdk.ViewState` (src lines 138-143). -/
structure ViewState where
  latitude : ℚ
  longitude : ℚ
  zoom : Nat
  pitch : Nat
deriving DecidableEq

/-- What the map section renders: the informational empty-state, or a deck
whose scatter layer holds one (lat, lon) position per data row and whose
initial view is the given view state. -/
inductive MapOutput where
  | info (msg : String)
  | deck (points : List (Option ℚ × Option ℚ)) (view : ViewState)
deriving DecidableEq

/-- Embeds the map section (src lines 92-153): `st.info` when
`valid_coords` is empty, otherwise a scatter layer over `valid_coords`
(one point per row, positioned at its lat and lon cells) with the view
centered at `center_lat` and `center_lon`, zoom 6, pitch 0. -/
def mapSection (f : List Row) : MapOutput :=
  if (valid_coords f).isEmpty then
    MapOutput.info ("No valid GPS coordinates found for the selected province.")
  else
    MapOutput.deck ((valid_coords f).map (fun r => (r.lat, r.lon)))
      { latitude := center_lat (valid_coords f)
        longitude := center_lon (valid_coords f)
        zoom := 6
        pitch := 0 }

/-- What the missing-coordinates section renders: the success message, or a
warning plus the table of rows missing a coordinate (also offered as a CSV
download). -/
inductive MissingOutput where
  | success (msg : String)
  | report (count : Nat) (table : List Row)
deriving DecidableEq

/-- Embeds the missing-coordinates section (src lines 159-171). -/
def missingSection (f : List Row) : MissingOutput :=
  if (missing_coords f).isEmpty then
    MissingOutput.success ("All records have GPS Points.")
  else
    MissingOutput.report (missing_coords f).length (missing_coords f)

/-- What one top-to-bottom run of the script produces after the upload:
the uncaught exception from `load_data` crashing the run, or `st.stop`
fired at line 62 because the loaded table is empty (with whatever errors
`load_data` reported before that), or the three rendered sections. -/
inductive AppResult where
  | crashed (msg : String)
  | stopped (errors : List String)
  | page (timelineOut : TimelineOutput) (mapOut : MapOutput) (missingOut : MissingOutput)
deriving DecidableEq

/-- Embeds the script's main flow after the upload (src lines 60-171):
load — an exception raised there crashes the run — then stop on an empty
table, filter by the selected province, and render the three sections. -/
def app (parse : String → Option DateTime) (t : RawTable) (selected_province : String) :
    AppResult :=
  match load_data parse t with
  | LoadResult.raised msg => AppResult.crashed msg
  | LoadResult.returned out =>
    if out.table.isEmpty then
      AppResult.stopped out.errors
    else
      let f := filtered out.table selected_province
      AppResult.page (timeline f) (mapSection f) (missingSection f)

/-! ## Concrete fixtures for witnesses and counterexamples -/

/-- A sample best-effort date parser recognising two date strings. -/
def parseSample : String → Option DateTime := fun s =>
  if s = "2024-01-01" then some { day := 19723, tod := 0 }
  else if s = "2024-01-02" then some { day := 19724, tod := 0 }
  else none

/-- A raw row with both coordinate pairs fully populated. -/
def rawBoth : RawRow :=
  { KEY := some "k1", Province := some "Kabul", SubmissionDate := some "2024-01-01",
    geopoint1Latitude := some 1, geopoint1Longitude := some 2,
    geopointLatitude := some 3, geopointLongitude := some 4, extra := [] }

/-- A one-row raw table with both required columns, carrying `rawBoth`;
its file has the seven columns of `RawRow`. -/
def tabBoth : RawTable :=
  { hasProvince := true, hasSubmissionDate := true, ncols := 7, rows := [rawBoth] }

/-- What `load_data` returns on `tabBoth`. -/
def outBoth : LoadOutput :=
  { errors := [], table := [loadRow parseSample rawBoth] }

/-- A loaded row with both derived coordinates present. -/
def rowValid : Row :=
  { KEY := some "k1", Province := some "Kabul", SubmissionDate := some { day := 19723, tod := 0 },
    geopoint1Latitude := some 1, geopoint1Longitude := some 2,
    geopointLatitude := none, geopointLongitude := none, extra := [],
    lat := some 1, lon := some 2 }

/-- A loaded row with null derived coordinates: its primary pair is only
half populated, so `pick_coordinates` nulls both derived fields. -/
def rowHalf : Row :=
  { KEY := some "k2", Province := some "Herat", SubmissionDate := none,
    geopoint1Latitude := some 5, geopoint1Longitude := none,
    geopointLatitude := none, geopointLongitude := none, extra := [],
    lat := none, lon := none }

/-- A two-row table mixing a mappable row and a missing-coordinates row. -/
def fPart : List Row := [rowValid, rowHalf]

/-- A loaded row dated on the following day, with no coordinates. -/
def rowDated2 : Row :=
  { KEY := some "k4", Province := some "Kabul", SubmissionDate := some { day := 19724, tod := 7 },
    geopoint1Latitude := none, geopoint1Longitude := none,
    geopointLatitude := none, geopointLongitude := none, extra := [],
    lat := none, lon := none }

/-- A three-row table with two dated rows on distinct days and one row
with a null timestamp. -/
def fTimes : List Row := [rowValid, rowDated2, rowHalf]

/-- A raw table lacking the Province column. -/
def tabNoProvince : RawTable :=
  { hasProvince := false, hasSubmissionDate := true, ncols := 6, rows := [rawBoth] }

/-- A raw table with the required columns, one extra column, and zero data
rows: the shape on which the coordinate expansion of `load_data` raises. -/
def tabEmptyWide : RawTable :=
  { hasProvince := true, hasSubmissionDate := true, ncols := 3, rows := [] }

/-- A raw row whose Province cell is null. -/
def rawNullProvince : RawRow :=
  { KEY := some "k3", Province := none, SubmissionDate := some "2024-01-01",
    geopoint1Latitude := none, geopoint1Longitude := none,
    geopointLatitude := none, geopointLongitude := none, extra := [] }

/-- A raw table with both required columns whose single row has a null
Province cell. -/
def tabNullProvince : RawTable :=
  { hasProvince := true, hasSubmissionDate := true, ncols := 7, rows := [rawNullProvince] }

/-! ## Helper lemmas -/

/-- When both required columns are present and the zero-row corner of the
coordinate expansion does not bite, `load_data` returns with no error and
maps `loadRow` over the rows. -/
theorem load_data_ok (parse : String → Option DateTime) (t : RawTable)
    (hp : t.hasProvince = true) (hs : t.hasSubmissionDate = true)
    (h2 : t.rows ≠ [] ∨ t.ncols = 2) :
    load_data parse t =
      LoadResult.returned { errors := [], table := t.rows.map (loadRow parse) } := by
  have hcc : coords_column_assignment t.ncols t.rows.length = Except.ok 2 := by
    rcases h2 with h2 | h2
    · have hlen : t.rows.length ≠ 0 := by
        simpa [List.length_eq_zero] using h2
      simp [coords_column_assignment, hlen]
    · simp [coords_column_assignment, h2]
  simp [load_data, hp, hs, hcc]

/-- Full characterization of `load_data` by cases on the input shape:
the two missing-column reports, the zero-row raise, and the normal
rowwise load. -/
theorem load_data_spec (parse : String → Option DateTime) (t : RawTable) :
    (t.hasProvince = false →
      load_data parse t = LoadResult.returned
        { errors := ["The file must contain a 'Province' column."], table := [] }) ∧
    (t.hasProvince = true → t.hasSubmissionDate = false →
      load_data parse t = LoadResult.returned
        { errors := ["The file must contain a 'SubmissionDate' column."], table := [] }) ∧
    (t.hasProvince = true → t.hasSubmissionDate = true → t.rows = [] → t.ncols ≠ 2 →
      load_data parse t = LoadResult.raised ("Length mismatch: Expected axis has " ++
        toString t.ncols ++ " elements, new values have 2 elements")) ∧
    (t.hasProvince = true → t.hasSubmissionDate = true → (t.rows ≠ [] ∨ t.ncols = 2) →
      load_data parse t = LoadResult.returned
        { errors := [], table := t.rows.map (loadRow parse) }) := by
  refine ⟨?_, ?_, ?_, ?_⟩
  · intro hp
    simp [load_data, hp]
  · intro hp hs
    simp [load_data, hp, hs]
  · intro hp hs hrows hnc
    have hcc : coords_column_assignment t.ncols t.rows.length =
        Except.error ("Length mismatch: Expected axis has " ++ toString t.ncols ++
          " elements, new values have 2 elements") := by
      simp [coords_column_assignment, hrows, hnc]
    simp [load_data, hp, hs, hcc]
  · intro hp hs h2
    exact load_data_ok parse t hp hs h2

/-- A returning run of `load_data` produced the empty table (a
missing-column report) or the rowwise image of the raw rows. -/
theorem load_data_returned_table {parse : String → Option DateTime} {t : RawTable}
    {out : LoadOutput} (hout : load_data parse t = LoadResult.returned out) :
    out.table = [] ∨ out.table = t.rows.map (loadRow parse) := by
  by_cases hp : t.hasProvince = false
  · rw [(load_data_spec parse t).1 hp] at hout
    left
    rw [← (LoadResult.returned.injEq ..).mp hout]
  · rw [Bool.not_eq_false] at hp
    by_cases hs : t.hasSubmissionDate = false
    · rw [(load_data_spec parse t).2.1 hp hs] at hout
      left
      rw [← (LoadResult.returned.injEq ..).mp hout]
    · rw [Bool.not_eq_false] at hs
      by_cases h2 : t.rows ≠ [] ∨ t.ncols = 2
      · rw [(load_data_spec parse t).2.2.2 hp hs h2] at hout
        right
        rw [← (LoadResult.returned.injEq ..).mp hout]
      · push_neg at h2
        rw [(load_data_spec parse t).2.2.1 hp hs h2.1 h2.2] at hout
        exact absurd hout (by simp)

/-- With both required columns present, a returning run of `load_data` is
exactly the normal rowwise load. -/
theorem load_data_returned_eq {parse : String → Option DateTime} {t : RawTable}
    {out : LoadOutput} (hp : t.hasProvince = true) (hs : t.hasSubmissionDate = true)
    (hout : load_data parse t = LoadResult.returned out) :
    out = { errors := [], table := t.rows.map (loadRow parse) } := by
  by_cases h2 : t.rows ≠ [] ∨ t.ncols = 2
  · rw [(load_data_spec parse t).2.2.2 hp hs h2] at hout
    exact ((LoadResult.returned.injEq ..).mp hout).symm
  · push_neg at h2
    rw [(load_data_spec parse t).2.2.1 hp hs h2.1 h2.2] at hout
    exact absurd hout (by simp)

/-- Every row of a returned table is `loadRow` of some raw row. -/
theorem mem_load_table {parse : String → Option DateTime} {t : RawTable}
    {out : LoadOutput} {row : Row}
    (hout : load_data parse t = LoadResult.returned out) (h : row ∈ out.table) :
    ∃ raw ∈ t.rows, row = loadRow parse raw := by
  rcases load_data_returned_table hout with ht | ht
  · rw [ht] at h
    simp at h
  · rw [ht] at h
    obtain ⟨raw, hraw, hrow⟩ := List.mem_map.mp h
    exact ⟨raw, hraw, hrow.symm⟩

/-- Two complementary Boolean predicates split a list's length. -/
theorem length_filter_add_length_filter_not {α : Type} (p q : α → Bool)
    (hpq : ∀ a, q a = !(p a)) (l : List α) :
    (l.filter p).length + (l.filter q).length = l.length := by
  induction l with
  | nil => rfl
  | cons a l ih =>
    have hq := hpq a
    cases hpa : p a <;> rw [hpa] at hq <;>
      simp [List.filter_cons, hpa, hq] <;> omega

/-- The missing-coordinates test is the Boolean negation of the
valid-coordinates test. -/
theorem missing_test_eq_not_valid_test (r : Row) :
    (r.lat.isNone || r.lon.isNone) = !(r.lat.isSome && r.lon.isSome) := by
  cases r.lat <;> cases r.lon <;> rfl

/-! ## Claim theorems -/

/-- Claim C1: for every row of the loaded table, the derived (lat, lon)
pair follows the strict fallback of `pick_coordinates`: if both
Geopoint1 fields are non-null the derived pair equals them, regardless of
the geopoint pair; otherwise, if both geopoint fields are non-null the
derived pair equals them; otherwise both derived fields are null.  The
output always equals one input pair or is null, so no averaging and no
numeric-range validation occurs. -/
theorem coordinate_fallback_of_load (parse : String → Option DateTime) (t : RawTable)
    (out : LoadOutput) (row : Row)
    (hout : load_data parse t = LoadResult.returned out) (hrow : row ∈ out.table) :
    (row.geopoint1Latitude.isSome = true → row.geopoint1Longitude.isSome = true →
      row.lat = row.geopoint1Latitude ∧ row.lon = row.geopoint1Longitude) ∧
    ((row.geopoint1Latitude = none ∨ row.geopoint1Longitude = none) →
      (row.geopointLatitude.isSome = true → row.geopointLongitude.isSome = true →
        row.lat = row.geopointLatitude ∧ row.lon = row.geopointLongitude) ∧
      ((row.geopointLatitude = none ∨ row.geopointLongitude = none) →
        row.lat = none ∧ row.lon = none)) := by
  obtain ⟨raw, hraw, rfl⟩ := mem_load_table hout hrow
  rcases raw with ⟨k, p, s, a1, b1, a2, b2, ex⟩
  cases a1 <;> cases b1 <;> cases a2 <;> cases b2 <;>
    simp [loadRow, pick_coordinates]

/-- Claim C1, witness: a concrete loaded row with both coordinate pairs
populated takes its derived pair from the Geopoint1 pair. -/
theorem coordinate_fallback_of_load_witness :
    (loadRow parseSample rawBoth).lat = some 1 ∧
    (loadRow parseSample rawBoth).lon = some 2 :=
  (coordinate_fallback_of_load parseSample tabBoth outBoth (loadRow parseSample rawBoth)
    rfl (by simp [outBoth])).1 rfl rfl

/-- Claim C2: the rows routed to the map (both derived coordinates
non-null) and the rows routed to the missing-coordinates report (a null
derived latitude or longitude) partition any filtered table: the two
lengths add up to the table's length and every row lies in exactly one of
the two lists. -/
theorem valid_missing_partition (f : List Row) :
    (valid_coords f).length + (missing_coords f).length = f.length ∧
    ∀ r ∈ f, (r ∈ valid_coords f ↔ r ∉ missing_coords f) := by
  constructor
  · exact length_filter_add_length_filter_not _ _ missing_test_eq_not_valid_test f
  · intro r hr
    simp only [valid_coords, missing_coords, List.mem_filter, hr, true_and]
    cases r.lat <;> cases r.lon <;> simp

/-- Claim C2, witness: the partition at a concrete two-row table, one row
with both coordinates and one with only a latitude. -/
theorem valid_missing_partition_witness :
    (valid_coords fPart).length + (missing_coords fPart).length = fPart.length ∧
    ∀ r ∈ fPart, (r ∈ valid_coords fPart ↔ r ∉ missing_coords fPart) :=
  valid_missing_partition fPart

/-- Claim C3: selecting a specific province returns exactly the rows whose
Province equals the selection (soundness, completeness, and an empty result
when the province is unknown), while selecting the sentinel "All Provinces"
returns the table unchanged.  `filtered` is a pure function of its inputs,
so it has no side effects and no error case by construction. -/
theorem province_filter_contract (df : List Row) (sel : String) :
    (sel = "All Provinces" → filtered df sel = df) ∧
    (sel ≠ "All Provinces" →
      (∀ r ∈ filtered df sel, r ∈ df ∧ r.Province = some sel) ∧
      (∀ r ∈ df, r.Province = some sel → r ∈ filtered df sel) ∧
      ((∀ r ∈ df, r.Province ≠ some sel) → filtered df sel = [])) := by
  constructor
  · intro h
    simp [filtered, h]
  · intro h
    refine ⟨?_, ?_, ?_⟩
    · intro r hr
      simpa [filtered, h, List.mem_filter] using hr
    · intro r hr hp
      simp [filtered, h, List.mem_filter, hr, hp]
    · intro hall
      rw [filtered, if_neg h, List.filter_eq_nil_iff]
      intro r hr
      simp [hall r hr]

/-- Claim C3, witness: filtering the concrete two-row table to the province
"Kabul" behaves as the contract states. -/
theorem province_filter_contract_witness :
    (∀ r ∈ filtered fPart "Kabul", r ∈ fPart ∧ r.Province = some "Kabul") ∧
    (∀ r ∈ fPart, r.Province = some "Kabul" → r ∈ filtered fPart "Kabul") ∧
    ((∀ r ∈ fPart, r.Province ≠ some "Kabul") → filtered fPart "Kabul" = []) :=
  (province_filter_contract fPart "Kabul").2 (by decide)

/-- The missing-column half of the load contract, which the code does
meet: a missing Province or SubmissionDate column is reported, the empty
table is returned, and the run stops before rendering. -/
theorem missing_column_report (parse : String → Option DateTime) (t : RawTable)
    (sel : String) :
    (t.hasProvince = false →
      load_data parse t = LoadResult.returned
        { errors := ["The file must contain a 'Province' column."], table := [] } ∧
      app parse t sel =
        AppResult.stopped ["The file must contain a 'Province' column."]) ∧
    (t.hasProvince = true → t.hasSubmissionDate = false →
      load_data parse t = LoadResult.returned
        { errors := ["The file must contain a 'SubmissionDate' column."], table := [] } ∧
      app parse t sel =
        AppResult.stopped ["The file must contain a 'SubmissionDate' column."]) := by
  constructor
  · intro hp
    have h := (load_data_spec parse t).1 hp
    exact ⟨h, by simp [app, h]⟩
  · intro hp hs
    have h := (load_data_spec parse t).2.1 hp hs
    exact ⟨h, by simp [app, h]⟩

/-- Claim C4: the success clause fails on the program.  At this concrete
input both required columns are present, yet `load_data` does not produce
a table: the upload has zero data rows and three header columns, so the
coordinate-expansion step raises the uncaught length-mismatch ValueError
(the defect recorded under C8) and the whole run crashes instead of
rendering or stopping.  The missing-column half of the claim does hold and
is proved separately as `missing_column_report`. -/
theorem required_columns_present_still_crashes :
    tabEmptyWide.hasProvince = true ∧ tabEmptyWide.hasSubmissionDate = true ∧
    load_data parseSample tabEmptyWide = LoadResult.raised
      ("Length mismatch: Expected axis has 3 elements, new values have 2 elements") ∧
    app parseSample tabEmptyWide "All Provinces" = AppResult.crashed
      ("Length mismatch: Expected axis has 3 elements, new values have 2 elements") :=
  ⟨rfl, rfl, by decide, by decide⟩

/-- Claim C5, counterexample: the loader never checks Province cells for
null, only the column's existence, so a table whose single row has a null
Province loads successfully — its record does not belong to a non-null
category, refuting the claim as stated. -/
theorem category_nonnull_counterexample :
    load_data parseSample tabNullProvince = LoadResult.returned
      { errors := [], table := [loadRow parseSample rawNullProvince] } ∧
    (loadRow parseSample rawNullProvince).Province = none :=
  ⟨by decide, rfl⟩

/-- Claim C5, amended: every row of a successfully loaded table carries a
single (possibly null) Province value, and has at most one resolved
coordinate pair: its derived latitude and longitude come entirely from the
non-null Geopoint1 pair, or entirely from the non-null geopoint pair, or
are both null — never mixed. -/
theorem resolved_pair_unmixed (parse : String → Option DateTime) (t : RawTable)
    (out : LoadOutput) (row : Row)
    (hout : load_data parse t = LoadResult.returned out) (hrow : row ∈ out.table) :
    (row.lat = row.geopoint1Latitude ∧ row.lon = row.geopoint1Longitude ∧
      row.geopoint1Latitude.isSome = true ∧ row.geopoint1Longitude.isSome = true) ∨
    (row.lat = row.geopointLatitude ∧ row.lon = row.geopointLongitude ∧
      row.geopointLatitude.isSome = true ∧ row.geopointLongitude.isSome = true) ∨
    (row.lat = none ∧ row.lon = none) := by
  obtain ⟨raw, hraw, rfl⟩ := mem_load_table hout hrow
  rcases raw with ⟨k, p, s, a1, b1, a2, b2, ex⟩
  cases a1 <;> cases b1 <;> cases a2 <;> cases b2 <;>
    simp [loadRow, pick_coordinates]

/-- Claim C5, witness: the amended invariant at a concrete loaded row. -/
theorem resolved_pair_unmixed_witness :
    ((loadRow parseSample rawBoth).lat = (loadRow parseSample rawBoth).geopoint1Latitude ∧
      (loadRow parseSample rawBoth).lon = (loadRow parseSample rawBoth).geopoint1Longitude ∧
      (loadRow parseSample rawBoth).geopoint1Latitude.isSome = true ∧
      (loadRow parseSample rawBoth).geopoint1Longitude.isSome = true) ∨
    ((loadRow parseSample rawBoth).lat = (loadRow parseSample rawBoth).geopointLatitude ∧
      (loadRow parseSample rawBoth).lon = (loadRow parseSample rawBoth).geopointLongitude ∧
      (loadRow parseSample rawBoth).geopointLatitude.isSome = true ∧
      (loadRow parseSample rawBoth).geopointLongitude.isSome = true) ∨
    ((loadRow parseSample rawBoth).lat = none ∧ (loadRow parseSample rawBoth).lon = none) :=
  resolved_pair_unmixed parseSample tabBoth outBoth (loadRow parseSample rawBoth)
    rfl (by simp [outBoth])

/-- Membership in `insertKey`. -/
theorem mem_insertKey {a d : Int} {l : List Int} :
    a ∈ insertKey d l ↔ a = d ∨ a ∈ l := by
  induction l with
  | nil => simp [insertKey]
  | cons x xs ih =>
    by_cases h1 : d < x
    · simp [insertKey, h1]
    · by_cases h2 : d = x
      · subst h2
        simp [insertKey, h1]
      · simp [insertKey, h1, h2, ih]
        tauto

/-- `insertKey` preserves strict ascending order. -/
theorem pairwise_insertKey {d : Int} {l : List Int}
    (h : List.Pairwise (fun a b => a < b) l) :
    List.Pairwise (fun a b => a < b) (insertKey d l) := by
  induction l with
  | nil => simp [insertKey]
  | cons x xs ih =>
    rcases List.pairwise_cons.mp h with ⟨hx, hxs⟩
    by_cases h1 : d < x
    · rw [insertKey, if_pos h1]
      refine List.pairwise_cons.mpr ⟨?_, h⟩
      intro b hb
      rcases List.mem_cons.mp hb with rfl | hb
      · exact h1
      · exact h1.trans (hx b hb)
    · by_cases h2 : d = x
      · rw [insertKey, if_neg h1, if_pos h2]
        exact h
      · rw [insertKey, if_neg h1, if_neg h2]
        refine List.pairwise_cons.mpr ⟨?_, ih hxs⟩
        intro b hb
        rcases mem_insertKey.mp hb with rfl | hb
        · omega
        · exact hx b hb

/-- The group keys are strictly ascending. -/
theorem pairwise_sortedKeys (l : List Int) :
    List.Pairwise (fun a b => a < b) (sortedKeys l) := by
  induction l with
  | nil => exact List.Pairwise.nil
  | cons x xs ih => exact pairwise_insertKey ih

/-- The group keys are exactly the values occurring in the list. -/
theorem mem_sortedKeys {a : Int} {l : List Int} :
    a ∈ sortedKeys l ↔ a ∈ l := by
  induction l with
  | nil => simp [sortedKeys]
  | cons x xs ih =>
    show a ∈ insertKey x (sortedKeys xs) ↔ _
    rw [mem_insertKey, ih]
    simp

/-- Counting a day among the non-null dates equals counting the rows whose
date is that day. -/
theorem datesOf_count (f : List Row) (d : Int) :
    (datesOf f).count d =
      (f.filter (fun r => decide (date_only r = some d))).length := by
  induction f with
  | nil => rfl
  | cons r f ih =>
    simp only [datesOf] at ih ⊢
    rw [List.filterMap_cons, List.filter_cons]
    cases h : date_only r with
    | none =>
      simp [h, ih]
    | some x =>
      by_cases hx : x = d
      · subst hx
        simp [h, List.count_cons, ih]
      · simp [h, List.count_cons, hx, ih, Ne.symm hx]

/-- A day occurs among the non-null dates iff some row carries it. -/
theorem mem_datesOf {f : List Row} {d : Int} :
    d ∈ datesOf f ↔ ∃ r ∈ f, date_only r = some d := by
  simp [datesOf, List.mem_filterMap]

/-- Claim C6: when the filtered table has at least one non-null timestamp,
the timeline section charts `times_by_date`: points are strictly ascending
in the calendar day, each point's count is the number of rows whose
timestamp falls on that day (so null timestamps are ignored), every such
count is positive, and the charted days are exactly the days occurring in
the table; when every timestamp is null, the section emits the
informational empty-state message instead. -/
theorem timeline_contract (f : List Row) :
    ((∃ r ∈ f, r.SubmissionDate.isSome = true) →
      timeline f = TimelineOutput.chart (times_by_date f) ∧
      List.Pairwise (fun p q => p.1 < q.1) (times_by_date f) ∧
      (∀ p ∈ times_by_date f,
        p.2 = (f.filter (fun r => decide (date_only r = some p.1))).length ∧ 0 < p.2) ∧
      (∀ d : Int, (∃ p ∈ times_by_date f, p.1 = d) ↔ ∃ r ∈ f, date_only r = some d)) ∧
    ((∀ r ∈ f, r.SubmissionDate = none) →
      timeline f = TimelineOutput.info ("No valid SubmissionDate values found.")) := by
  constructor
  · intro h
    refine ⟨?_, ?_, ?_, ?_⟩
    · rw [timeline, if_pos]
      rw [List.any_eq_true]
      exact h
    · rw [times_by_date, List.pairwise_map]
      exact pairwise_sortedKeys (datesOf f)
    · intro p hp
      rw [times_by_date, List.mem_map] at hp
      obtain ⟨d, hd, rfl⟩ := hp
      refine ⟨datesOf_count f d, ?_⟩
      rw [List.count_pos_iff]
      exact mem_sortedKeys.mp hd
    · intro d
      rw [← mem_datesOf, ← mem_sortedKeys (l := datesOf f)]
      constructor
      · rintro ⟨p, hp, rfl⟩
        rw [times_by_date, List.mem_map] at hp
        obtain ⟨x, hx, hxp⟩ := hp
        rw [← hxp]
        exact hx
      · intro hd
        exact ⟨(d, (datesOf f).count d), List.mem_map.mpr ⟨d, hd, rfl⟩, rfl⟩
  · intro h
    rw [timeline, if_neg]
    simp only [List.any_eq_true, not_exists, not_and]
    intro r hr
    simp [h r hr]

/-- Claim C6, witness: the timeline contract at a concrete table of three
rows, two dated (on distinct days) and one with a null timestamp. -/
theorem timeline_contract_witness :
    timeline fTimes = TimelineOutput.chart (times_by_date fTimes) ∧
    List.Pairwise (fun p q => p.1 < q.1) (times_by_date fTimes) ∧
    (∀ p ∈ times_by_date fTimes,
      p.2 = (fTimes.filter (fun r => decide (date_only r = some p.1))).length ∧ 0 < p.2) ∧
    (∀ d : Int, (∃ p ∈ times_by_date fTimes, p.1 = d) ↔ ∃ r ∈ fTimes, date_only r = some d) :=
  (timeline_contract fTimes).1 ⟨rowValid, by decide, rfl⟩

/-- Claim C7: timestamp parsing is best-effort and per-row.  With the
required columns present, whether `load_data` raises does not depend on
the parser or on any timestamp value at all — it raises exactly on the
zero-row wide-frame shape — so no unparseable timestamp ever aborts the
load; every returning run reports no error whatever the parser does,
keeps one row per input row, computes row i from raw row i alone, turns a
null or unparseable SubmissionDate cell into null, and turns a parseable
cell into its parsed date. -/
theorem timestamp_parse_best_effort (parse : String → Option DateTime) (t : RawTable)
    (hp : t.hasProvince = true) (hs : t.hasSubmissionDate = true) :
    ((∃ msg, load_data parse t = LoadResult.raised msg) ↔ t.rows = [] ∧ t.ncols ≠ 2) ∧
    ∀ out, load_data parse t = LoadResult.returned out →
      out.errors = [] ∧
      out.table.length = t.rows.length ∧
      ∀ i (hi : i < t.rows.length),
        out.table[i]? = some (loadRow parse t.rows[i]) ∧
        (loadRow parse t.rows[i]).SubmissionDate = t.rows[i].SubmissionDate.bind parse ∧
        (t.rows[i].SubmissionDate = none → (loadRow parse t.rows[i]).SubmissionDate = none) ∧
        (∀ s, t.rows[i].SubmissionDate = some s →
          (loadRow parse t.rows[i]).SubmissionDate = parse s) := by
  constructor
  · constructor
    · rintro ⟨msg, hmsg⟩
      by_contra hc
      push_neg at hc
      have h2 : t.rows ≠ [] ∨ t.ncols = 2 := by
        by_cases hr : t.rows = []
        · exact Or.inr (hc hr)
        · exact Or.inl hr
      rw [(load_data_spec parse t).2.2.2 hp hs h2] at hmsg
      exact absurd hmsg (by simp)
    · rintro ⟨hrows, hnc⟩
      exact ⟨_, (load_data_spec parse t).2.2.1 hp hs hrows hnc⟩
  · intro out hout
    obtain rfl := load_data_returned_eq hp hs hout
    refine ⟨rfl, by simp, ?_⟩
    intro i hi
    refine ⟨?_, rfl, ?_, ?_⟩
    · rw [List.getElem?_map, List.getElem?_eq_getElem hi]
      rfl
    · intro h
      simp [loadRow, h]
    · intro s h
      simp [loadRow, h]

/-- Claim C7, witness: the contract at the concrete one-row table, whose
SubmissionDate cell "2024-01-01" the sample parser accepts — in
particular this load cannot raise, having a data row. -/
theorem timestamp_parse_best_effort_witness :
    ((∃ msg, load_data parseSample tabBoth = LoadResult.raised msg) ↔
      tabBoth.rows = [] ∧ tabBoth.ncols ≠ 2) ∧
    outBoth.errors = [] ∧
    outBoth.table.length = tabBoth.rows.length ∧
    outBoth.table[0]? = some (loadRow parseSample rawBoth) ∧
    (loadRow parseSample rawBoth).SubmissionDate = some { day := 19723, tod := 0 } :=
  ⟨(timestamp_parse_best_effort parseSample tabBoth rfl rfl).1,
   ((timestamp_parse_best_effort parseSample tabBoth rfl rfl).2 outBoth rfl).1,
   ((timestamp_parse_best_effort parseSample tabBoth rfl rfl).2 outBoth rfl).2.1,
   (((timestamp_parse_best_effort parseSample tabBoth rfl rfl).2 outBoth rfl).2.2
     0 (by decide)).1,
   (((timestamp_parse_best_effort parseSample tabBoth rfl rfl).2 outBoth rfl).2.2
     0 (by decide)).2.2.2 "2024-01-01" rfl⟩

/-- Claim C8: at the failing input the claim describes — an uploaded table
with the required columns present, a third column, and zero data rows — the
coordinate-expansion step of `load_data` raises an uncaught length-mismatch
ValueError instead of degrading to a message, because pandas `apply` on a
zero-row frame returns the frame with its original three columns and the
assignment of the two names lat, lon to those columns fails. -/
theorem zero_row_upload_length_mismatch :
    coords_column_assignment 3 0 =
      Except.error
        ("Length mismatch: Expected axis has 3 elements, new values have 2 elements") :=
  rfl

/-- All rows kept by `valid_coords` have both coordinates non-null. -/
theorem mem_valid_coords_isSome {f : List Row} {r : Row} (h : r ∈ valid_coords f) :
    r.lat.isSome = true ∧ r.lon.isSome = true := by
  rw [valid_coords, List.mem_filter] at h
  exact Bool.and_eq_true_iff.mp h.2

/-- A `filterMap` whose function succeeds on every element keeps the
length. -/
theorem length_filterMap_of_isSome {α β : Type} (g : α → Option β) (l : List α)
    (h : ∀ a ∈ l, (g a).isSome = true) :
    (l.filterMap g).length = l.length := by
  induction l with
  | nil => rfl
  | cons a l ih =>
    rw [List.filterMap_cons]
    have ha := h a (List.mem_cons_self a l)
    cases hg : g a with
    | none =>
      rw [hg] at ha
      simp at ha
    | some b =>
      simp only [List.length_cons]
      rw [ih fun x hx => h x (List.mem_cons_of_mem a hx)]

/-- Claim C9: when some rows have valid coordinates, the map section
renders a deck with exactly one point per valid row, positioned at that
row's coordinates, every valid row contributing exactly one latitude and
one longitude; the view is centered at the arithmetic mean (sum divided by
count) of the plotted latitudes and of the plotted longitudes, with the
fixed zoom 6; with no valid rows it emits the empty-state message. -/
theorem map_section_contract (f : List Row) :
    (valid_coords f = [] →
      mapSection f =
        MapOutput.info ("No valid GPS coordinates found for the selected province.")) ∧
    (valid_coords f ≠ [] →
      mapSection f =
        MapOutput.deck ((valid_coords f).map (fun r => (r.lat, r.lon)))
          { latitude := center_lat (valid_coords f)
            longitude := center_lon (valid_coords f)
            zoom := 6
            pitch := 0 } ∧
      ((valid_coords f).map (fun r => (r.lat, r.lon))).length = (valid_coords f).length ∧
      ((valid_coords f).filterMap Row.lat).length = (valid_coords f).length ∧
      ((valid_coords f).filterMap Row.lon).length = (valid_coords f).length ∧
      center_lat (valid_coords f) =
        ((valid_coords f).filterMap Row.lat).sum /
          (((valid_coords f).filterMap Row.lat).length : ℚ) ∧
      center_lon (valid_coords f) =
        ((valid_coords f).filterMap Row.lon).sum /
          (((valid_coords f).filterMap Row.lon).length : ℚ)) := by
  constructor
  · intro h
    rw [mapSection, if_pos (List.isEmpty_iff.mpr h)]
  · intro h
    have hne : (valid_coords f).isEmpty = false := by
      rw [← Bool.not_eq_true, List.isEmpty_iff]
      exact h
    refine ⟨?_, by simp, ?_, ?_, rfl, rfl⟩
    · rw [mapSection, hne]
      rfl
    · exact length_filterMap_of_isSome _ _ fun r hr => (mem_valid_coords_isSome hr).1
    · exact length_filterMap_of_isSome _ _ fun r hr => (mem_valid_coords_isSome hr).2

/-- Claim C9, witness: the map contract at the concrete two-row table,
whose single valid row is plotted and centers the view. -/
theorem map_section_contract_witness :
    mapSection fPart =
      MapOutput.deck ((valid_coords fPart).map (fun r => (r.lat, r.lon)))
        { latitude := center_lat (valid_coords fPart)
          longitude := center_lon (valid_coords fPart)
          zoom := 6
          pitch := 0 } ∧
    ((valid_coords fPart).map (fun r => (r.lat, r.lon))).length =
      (valid_coords fPart).length ∧
    ((valid_coords fPart).filterMap Row.lat).length = (valid_coords fPart).length ∧
    ((valid_coords fPart).filterMap Row.lon).length = (valid_coords fPart).length ∧
    center_lat (valid_coords fPart) =
      ((valid_coords fPart).filterMap Row.lat).sum /
        (((valid_coords fPart).filterMap Row.lat).length : ℚ) ∧
    center_lon (valid_coords fPart) =
      ((valid_coords fPart).filterMap Row.lon).sum /
        (((valid_coords fPart).filterMap Row.lon).length : ℚ) :=
  (map_section_contract fPart).2 (by decide)

/-- Claim C10: loading a table with the required columns present keeps
exactly one output row per input row; in row i every original column is
copied unchanged — KEY, Province, the four coordinate columns, and all
free-form columns — except SubmissionDate, which is rewritten by the date
parser; and the two derived columns lat and lon appended to the row are
the two components of `pick_coordinates`.  The `Row` type has no field
beyond the `RawRow` fields and lat, lon, so no other column is added. -/
theorem load_frame_effect (parse : String → Option DateTime) (t : RawTable)
    (out : LoadOutput)
    (hp : t.hasProvince = true) (hs : t.hasSubmissionDate = true)
    (hout : load_data parse t = LoadResult.returned out) :
    out.table.length = t.rows.length ∧
    ∀ i (hi : i < t.rows.length),
      ∃ row, out.table[i]? = some row ∧
        row.KEY = t.rows[i].KEY ∧
        row.Province = t.rows[i].Province ∧
        row.geopoint1Latitude = t.rows[i].geopoint1Latitude ∧
        row.geopoint1Longitude = t.rows[i].geopoint1Longitude ∧
        row.geopointLatitude = t.rows[i].geopointLatitude ∧
        row.geopointLongitude = t.rows[i].geopointLongitude ∧
        row.extra = t.rows[i].extra ∧
        row.SubmissionDate = t.rows[i].SubmissionDate.bind parse ∧
        row.lat = (pick_coordinates t.rows[i]).1 ∧
        row.lon = (pick_coordinates t.rows[i]).2 := by
  obtain rfl := load_data_returned_eq hp hs hout
  refine ⟨by simp, ?_⟩
  intro i hi
  refine ⟨loadRow parse t.rows[i], ?_, rfl, rfl, rfl, rfl, rfl, rfl, rfl, rfl, rfl, rfl⟩
  rw [List.getElem?_map, List.getElem?_eq_getElem hi]
  rfl

/-- Claim C10, witness: the frame effect at the concrete one-row table. -/
theorem load_frame_effect_witness :
    outBoth.table.length = tabBoth.rows.length ∧
    ∃ row, outBoth.table[0]? = some row ∧
      row.KEY = rawBoth.KEY ∧
      row.Province = rawBoth.Province ∧
      row.geopoint1Latitude = rawBoth.geopoint1Latitude ∧
      row.geopoint1Longitude = rawBoth.geopoint1Longitude ∧
      row.geopointLatitude = rawBoth.geopointLatitude ∧
      row.geopointLongitude = rawBoth.geopointLongitude ∧
      row.extra = rawBoth.extra ∧
      row.SubmissionDate = rawBoth.SubmissionDate.bind parseSample ∧
      row.lat = (pick_coordinates rawBoth).1 ∧
      row.lon = (pick_coordinates rawBoth).2 :=
  ⟨(load_frame_effect parseSample tabBoth outBoth rfl rfl rfl).1,
   (load_frame_effect parseSample tabBoth outBoth rfl rfl rfl).2 0 (by decide)⟩

end MapProvince
